import Mathlib

/-!
Verification of the task persistence and mutation layer of `task_cli.py`
(classes `Task` and `TaskManager`).  The state of a `TaskManager` together
with its `tasks.json` file is embedded as a `Store`; the file is the list
of serialized task objects it contains.  Timestamps are opaque strings:
`datetime.now().isoformat()` is passed in as the explicit `now` argument
of every operation that stamps a time.  The display layer (rich tables,
pyfiglet, `print`) is out of scope; `list_tasks` is embedded as the
collection the method renders, since the method performs no file access.
-/

namespace TaskCli

/-- A task record, as in class `Task` of `task_cli.py`: fields `id`,
`description`, `status`, `created_at`, `updated_at`. -/
structure Task where
  id : Int
  description : String
  status : String
  created_at : String
  updated_at : String
  deriving DecidableEq

/-- Python truthiness of an optional string: `None` and `""` are falsy.
Used by `created_at or datetime.now().isoformat()` in `Task.__init__`. -/
def strFalsy : Option String → Bool
  | none => true
  | some s => s == ""

/-- The `or`-defaulting of `Task.__init__`: a falsy timestamp argument is
replaced by the current timestamp `now`. -/
def orNow (v : Option String) (now : String) : String :=
  if strFalsy v then now else v.getD now

/-- Constructor `Task.__init__`: both timestamps default to `now` when the
given value is falsy (`None` or the empty string). -/
def Task.init (task_id : Int) (description : String) (status : String)
    (created_at updated_at : Option String) (now : String) : Task :=
  { id := task_id, description := description, status := status,
    created_at := orNow created_at now, updated_at := orNow updated_at now }

/-- The serialized form of a task: the five-key JSON object written by
`Task.to_dict` (keys `id`, `description`, `status`, `createdAt`,
`updatedAt`). -/
structure TaskDict where
  id : Int
  description : String
  status : String
  createdAt : String
  updatedAt : String
  deriving DecidableEq

/-- Method `Task.to_dict`. -/
def Task.to_dict (t : Task) : TaskDict :=
  { id := t.id, description := t.description, status := t.status,
    createdAt := t.created_at, updatedAt := t.updated_at }

/-- Classmethod `Task.from_dict`: builds the task through `Task.__init__`,
so a falsy (empty) timestamp string is replaced by `now`. -/
def Task.from_dict (d : TaskDict) (now : String) : Task :=
  Task.init d.id d.description d.status (some d.createdAt) (some d.updatedAt) now

/-- State of a `TaskManager` together with the content of `tasks.json`:
the in-memory list `tasks` and the persisted file, modelled as the list of
serialized task objects it currently holds. -/
structure Store where
  tasks : List Task
  file : List TaskDict
  deriving DecidableEq

/-- A manager over a freshly created `tasks.json` holding `[]`. -/
def emptyStore : Store := { tasks := [], file := [] }

/-- Method `TaskManager.save_tasks`: rewrites the whole file with the
serialization of the in-memory collection. -/
def save_tasks (s : Store) : Store :=
  { s with file := s.tasks.map Task.to_dict }

/-- Method `TaskManager.load_tasks` on a well-formed file: replaces the
in-memory collection with the deserialization of the file content. -/
def load_tasks (s : Store) (now : String) : Store :=
  { s with tasks := s.file.map (fun d => Task.from_dict d now) }

/-- Outcome reported by the mutating operations: the source prints either a
success line or a `not found` line; no exception is raised either way. -/
inductive OpResult where
  | ok
  | notFound
  deriving DecidableEq

/-- Method `TaskManager._find_task_by_id`: the first task whose id matches,
if any (`next((task for task in self.tasks if task.id == task_id), None)`). -/
def find_task_by_id (tasks : List Task) (task_id : Int) : Option Task :=
  tasks.find? (fun t => t.id == task_id)

/-- Value-semantics rendering of mutating, in place, the object returned by
`_find_task_by_id`: apply `f` to the first task whose id is `task_id`. -/
def updateFirst (tasks : List Task) (task_id : Int) (f : Task → Task) : List Task :=
  match tasks with
  | [] => []
  | t :: ts => if t.id == task_id then f t :: ts else t :: updateFirst ts task_id f

/-- Value-semantics rendering of `self.tasks.remove(task)` where `task` is
the object returned by `_find_task_by_id`: drop the first task whose id is
`task_id`. -/
def deleteFirst (tasks : List Task) (task_id : Int) : List Task :=
  match tasks with
  | [] => []
  | t :: ts => if t.id == task_id then ts else t :: deleteFirst ts task_id

/-- Method `TaskManager.add_task`: the new id is `len(self.tasks) + 1`; the
new task gets status `todo` and both timestamps `now`; the collection is
appended to and saved.  The description is not validated. -/
def add_task (s : Store) (description : String) (now : String) : Int × Store :=
  let task_id : Int := s.tasks.length + 1
  let new_task := Task.init task_id description "todo" none none now
  (task_id, save_tasks { s with tasks := s.tasks ++ [new_task] })

/-- Method `TaskManager.update_task`: on a found id, replace the description,
refresh `updated_at`, save; otherwise report not-found and touch nothing. -/
def update_task (s : Store) (task_id : Int) (new_description : String)
    (now : String) : OpResult × Store :=
  match find_task_by_id s.tasks task_id with
  | some _ =>
      (OpResult.ok, save_tasks { s with
        tasks := updateFirst s.tasks task_id
          (fun t => { t with description := new_description, updated_at := now }) })
  | none => (OpResult.notFound, s)

/-- Method `TaskManager.delete_task`: on a found id, remove that task and
save; otherwise report not-found and touch nothing. -/
def delete_task (s : Store) (task_id : Int) : OpResult × Store :=
  match find_task_by_id s.tasks task_id with
  | some _ => (OpResult.ok, save_tasks { s with tasks := deleteFirst s.tasks task_id })
  | none => (OpResult.notFound, s)

/-- Method `TaskManager.mark_task`: on a found id, set `status` to the given
string — with no validation against the three enumerated values — refresh
`updated_at`, save; otherwise report not-found and touch nothing. -/
def mark_task (s : Store) (task_id : Int) (status : String)
    (now : String) : OpResult × Store :=
  match find_task_by_id s.tasks task_id with
  | some _ =>
      (OpResult.ok, save_tasks { s with
        tasks := updateFirst s.tasks task_id
          (fun t => { t with status := status, updated_at := now }) })
  | none => (OpResult.notFound, s)

/-- Method `TaskManager.list_tasks`: the collection the method renders.
`if not status` treats `None` and the empty string alike; any other string
selects the tasks whose status equals it.  No file access happens here. -/
def list_tasks (tasks : List Task) (status : Option String) : List Task :=
  match status with
  | none => tasks
  | some st => if st == "" then tasks else tasks.filter (fun t => t.status == st)

/-- A JSON value as `json.load` can place one into a task field.  Composite
values are not needed for the malformed-content analysis below. -/
inductive JVal where
  | jnull
  | jbool (b : Bool)
  | jint (n : Int)
  | jstr (s : String)
  deriving DecidableEq

/-- A parsed JSON object: an association list of keys to values. -/
abbrev RawDict := List (String × JVal)

/-- Dictionary lookup; the first binding wins, a missing key gives `none`. -/
def dictGet (d : RawDict) (k : String) : Option JVal :=
  (d.find? (fun p => p.1 == k)).map (fun p => p.2)

/-- Python truthiness of a JSON value, for the `or` in `Task.__init__`. -/
def jfalsy : JVal → Bool
  | JVal.jnull => true
  | JVal.jbool b => !b
  | JVal.jint n => n == 0
  | JVal.jstr s => s == ""

/-- A task as built by `Task.from_dict` from raw JSON: the constructor
performs no type checking, so every field holds whatever JSON value the file
supplied. -/
structure RawTask where
  id : JVal
  description : JVal
  status : JVal
  created_at : JVal
  updated_at : JVal
  deriving DecidableEq

/-- List of keys `Task.from_dict` reads from each task object. -/
def requiredKeys : List String :=
  ["id", "description", "status", "createdAt", "updatedAt"]

/-- `Task.from_dict` applied to raw JSON: a missing key raises `KeyError`
(modelled as `Except.error`); present values are stored without any type
check, with the falsy-to-`now` defaulting of `Task.__init__` applied to the
two timestamp fields. -/
def raw_from_dict (d : RawDict) (now : String) : Except String RawTask :=
  match dictGet d "id" with
  | none => Except.error "KeyError: id"
  | some vid =>
    match dictGet d "description" with
    | none => Except.error "KeyError: description"
    | some vdesc =>
      match dictGet d "status" with
      | none => Except.error "KeyError: status"
      | some vstat =>
        match dictGet d "createdAt" with
        | none => Except.error "KeyError: createdAt"
        | some vca =>
          match dictGet d "updatedAt" with
          | none => Except.error "KeyError: updatedAt"
          | some vua =>
            Except.ok { id := vid, description := vdesc, status := vstat,
                        created_at := if jfalsy vca then JVal.jstr now else vca,
                        updated_at := if jfalsy vua then JVal.jstr now else vua }

/-- `TaskManager.load_tasks` over raw file content: the list comprehension
`[Task.from_dict(task) for task in task_dicts]` propagates the exception of
the first task object that fails; on failure `self.tasks` is not assigned. -/
def raw_load (file : List RawDict) (now : String) : Except String (List RawTask) :=
  match file with
  | [] => Except.ok []
  | d :: ds =>
    match raw_from_dict d now with
    | Except.error e => Except.error e
    | Except.ok t =>
      match raw_load ds now with
      | Except.error e => Except.error e
      | Except.ok ts => Except.ok (t :: ts)

/-- A concrete task used in witnesses and counterexamples. -/
def sampleTask (i : Int) (d : String) : Task :=
  { id := i, description := d, status := "todo", created_at := "t0", updated_at := "t0" }

/-- The store reached from an empty one by Add("a"), Add("b"), Add("c"),
Delete(1), Add("d"). -/
def c1Store : Store :=
  (add_task
    (delete_task
      (add_task (add_task (add_task emptyStore "a" "t1").2 "b" "t2").2 "c" "t3").2
      1).2
    "d" "t5").2

/-- Claim C1 counterexample: the Add/Delete sequence Add, Add, Add,
Delete(1), Add from an empty store produces the id multiset [2, 3, 3] —
two tasks share id 3, refuting the uniqueness invariant as stated. -/
theorem c1_counterexample :
    c1Store.tasks.map Task.id = [2, 3, 3] ∧
    ¬ (c1Store.tasks.map Task.id).Nodup := by
  constructor
  · rfl
  · decide

/-- Running a sequence of Add operations: each pair carries the description
and the timestamp of that call. -/
def run_adds (s : Store) (calls : List (String × String)) : Store :=
  calls.foldl (fun st p => (add_task st p.1 p.2).2) s

/-- Positional ids: task at position `k` (zero-based) carries id `k + 1`.
This is the shape every Add-only history keeps. -/
def idsSequential (tasks : List Task) : Prop :=
  tasks.map Task.id = (List.range tasks.length).map (fun k : Nat => (k : Int) + 1)

theorem add_task_tasks (s : Store) (d now : String) :
    (add_task s d now).2.tasks =
      s.tasks ++ [Task.init ((s.tasks.length : Int) + 1) d "todo" none none now] := rfl

theorem add_preserves_idsSequential (s : Store) (d now : String)
    (h : idsSequential s.tasks) : idsSequential (add_task s d now).2.tasks := by
  unfold idsSequential at h ⊢
  rw [add_task_tasks]
  simp only [List.map_append, List.length_append, List.map_cons, List.map_nil,
    List.length_cons, List.length_nil, List.range_succ, h]
  simp [Task.init]

theorem run_adds_idsSequential (calls : List (String × String)) (s : Store)
    (h : idsSequential s.tasks) : idsSequential (run_adds s calls).tasks := by
  induction calls generalizing s with
  | nil => exact h
  | cons p ps ih => exact ih _ (add_preserves_idsSequential s p.1 p.2 h)

theorem idsSequential_nodup (tasks : List Task) (h : idsSequential tasks) :
    (tasks.map Task.id).Nodup := by
  rw [h]
  refine List.Nodup.map ?_ (List.nodup_range tasks.length)
  intro a b hab
  have hab' : (a : Int) + 1 = (b : Int) + 1 := hab
  have : (a : Int) = (b : Int) := by omega
  exact_mod_cast this

/-- Claim C1 (amended): after any sequence of Add operations starting from an
empty store no two tasks share an id (the ids are 1, 2, …, N positionally);
once a Delete removes a task other than the last one, a subsequent Add can
duplicate an existing id, as the counterexample Add, Add, Add, Delete(1),
Add shows. -/
theorem c1_add_only_unique_ids (calls : List (String × String)) :
    ((run_adds emptyStore calls).tasks.map Task.id).Nodup :=
  idsSequential_nodup _ (run_adds_idsSequential calls emptyStore (by rfl))

/-- A store holding three tasks with ids 1, 2, 3, as persisted. -/
def store123 : Store :=
  save_tasks { tasks := [sampleTask 1 "a", sampleTask 2 "b", sampleTask 3 "c"], file := [] }

/-- Claim C2: Add assigns id = current task count + 1, appending the new
task; and in the scenario ids [1,2,3] → Delete(2) → ids [1,3], the next Add
assigns id 3 again. -/
theorem c2_add_assigns_count_plus_one :
    (∀ (s : Store) (d now : String),
      (add_task s d now).1 = (s.tasks.length : Int) + 1 ∧
      (add_task s d now).2.tasks =
        s.tasks ++ [Task.init ((s.tasks.length : Int) + 1) d "todo" none none now]) ∧
    ((delete_task store123 2).2.tasks.map Task.id = [1, 3] ∧
      (add_task (delete_task store123 2).2 "d" "t1").1 = 3) := by
  refine ⟨fun s d now => ⟨rfl, rfl⟩, ?_, ?_⟩ <;> decide

/-- Claim C5 counterexample: Add with the empty description does not fail;
it appends the task `id 1, description "", status todo` and persists it. -/
theorem c5_counterexample :
    (add_task emptyStore "" "t1").2.tasks =
      [{ id := 1, description := "", status := "todo",
         created_at := "t1", updated_at := "t1" }] ∧
    (add_task emptyStore "" "t1").2.file =
      [{ id := 1, description := "", status := "todo",
         createdAt := "t1", updatedAt := "t1" }] := by
  decide

/-- Claim C5 (amended): Add performs no validation of the description: with
the empty description it still appends a task (id = count + 1, status
`todo`, the empty description kept) and persists the grown collection. -/
theorem c5_add_empty_description_succeeds (s : Store) (now : String) :
    (add_task s "" now).2.tasks =
      s.tasks ++ [{ id := (s.tasks.length : Int) + 1, description := "",
                    status := "todo", created_at := now, updated_at := now }] ∧
    (add_task s "" now).2.file = (add_task s "" now).2.tasks.map Task.to_dict := by
  exact ⟨rfl, rfl⟩

/-- Claim C9: a List call whose status filter is the empty string returns
the entire collection — `if not status` treats the falsy `""` exactly like
the absent filter — not the subset of tasks whose status is `""`. -/
theorem c9_list_empty_filter_returns_all (tasks : List Task) :
    list_tasks tasks (some "") = tasks ∧
    list_tasks tasks (some "") = list_tasks tasks none := by
  exact ⟨rfl, rfl⟩

theorem from_dict_to_dict (t : Task) (now : String)
    (h1 : t.created_at ≠ "") (h2 : t.updated_at ≠ "") :
    Task.from_dict (Task.to_dict t) now = t := by
  have b1 : (t.created_at == "") = false := beq_eq_false_iff_ne.mpr h1
  have b2 : (t.updated_at == "") = false := beq_eq_false_iff_ne.mpr h2
  simp [Task.from_dict, Task.to_dict, Task.init, orNow, strFalsy, b1, b2]

theorem map_from_to (now : String) :
    ∀ ts : List Task, (∀ t ∈ ts, t.created_at ≠ "" ∧ t.updated_at ≠ "") →
      ts.map (fun t => Task.from_dict (Task.to_dict t) now) = ts := by
  intro ts h
  induction ts with
  | nil => rfl
  | cons t ts ih =>
      have ht := h t (by simp)
      simp only [List.map_cons, from_dict_to_dict t now ht.1 ht.2,
        ih (fun u hu => h u (by simp [hu]))]

/-- Claim C3: for a valid collection — every timestamp a non-empty string,
as ISO-8601 stamps always are — Save followed by Load restores the exact
list of tasks: same ids, descriptions, statuses, timestamps, same order.
(The hypothesis is needed: `Task.__init__` replaces a falsy timestamp by
the current time, so an empty-string timestamp would not survive.) -/
theorem c3_save_load_roundtrip (s : Store) (now : String)
    (h : ∀ t ∈ s.tasks, t.created_at ≠ "" ∧ t.updated_at ≠ "") :
    (load_tasks (save_tasks s) now).tasks = s.tasks := by
  show ((s.tasks.map Task.to_dict).map (fun d => Task.from_dict d now)) = s.tasks
  rw [List.map_map]
  exact map_from_to now s.tasks h

/-- A two-task store with distinct statuses and non-empty timestamps. -/
def demoStore : Store :=
  { tasks := [sampleTask 1 "a", { sampleTask 2 "b" with status := "done" }],
    file := [] }

theorem c3_witness :
    (load_tasks (save_tasks demoStore) "t9").tasks = demoStore.tasks :=
  c3_save_load_roundtrip demoStore "t9" (by decide)

theorem find_task_by_id_eq_none (tasks : List Task) (task_id : Int)
    (h : ∀ t ∈ tasks, t.id ≠ task_id) :
    find_task_by_id tasks task_id = none := by
  apply List.find?_eq_none.mpr
  intro t ht
  simpa using h t ht

/-- Claim C4: Update, Delete and MarkStatus on an id absent from the
collection return the store completely untouched — in-memory list and
persisted file alike — and report a not-found outcome instead of raising. -/
theorem c4_not_found_noop (s : Store) (task_id : Int) (d st now : String)
    (h : ∀ t ∈ s.tasks, t.id ≠ task_id) :
    update_task s task_id d now = (OpResult.notFound, s) ∧
    delete_task s task_id = (OpResult.notFound, s) ∧
    mark_task s task_id st now = (OpResult.notFound, s) := by
  have hf := find_task_by_id_eq_none s.tasks task_id h
  refine ⟨?_, ?_, ?_⟩ <;> simp [update_task, delete_task, mark_task, hf]

theorem c4_witness :
    update_task demoStore 5 "x" "t9" = (OpResult.notFound, demoStore) ∧
    delete_task demoStore 5 = (OpResult.notFound, demoStore) ∧
    mark_task demoStore 5 "done" "t9" = (OpResult.notFound, demoStore) :=
  c4_not_found_noop demoStore 5 "x" "done" "t9" (by decide)

/-- Claim C7: List without a filter returns the whole collection, and List
with a non-empty status filter returns exactly the tasks whose status equals
the filter, in original order (`List.filter` keeps the order).  `list_tasks`
is a pure function of the in-memory collection: the source method performs
no file read or write. -/
theorem c7_list_filter_correct (tasks : List Task) (st : String) :
    list_tasks tasks none = tasks ∧
    (st ≠ "" → list_tasks tasks (some st) = tasks.filter (fun t => t.status == st)) := by
  refine ⟨rfl, fun h => ?_⟩
  have b : (st == "") = false := beq_eq_false_iff_ne.mpr h
  simp [list_tasks, b]

theorem c7_witness :
    list_tasks demoStore.tasks (some "done") =
      [{ sampleTask 2 "b" with status := "done" }] :=
  ((c7_list_filter_correct demoStore.tasks "done").2 (by decide)).trans (by decide)

theorem find_task_by_id_append (pre post : List Task) (t : Task) (task_id : Int)
    (hpre : ∀ u ∈ pre, u.id ≠ task_id) (ht : t.id = task_id) :
    find_task_by_id (pre ++ t :: post) task_id = some t := by
  induction pre with
  | nil =>
      have hb : (t.id == task_id) = true := beq_iff_eq.mpr ht
      simp [find_task_by_id, List.find?, hb]
  | cons u pre ih =>
      have hu : (u.id == task_id) = false :=
        beq_eq_false_iff_ne.mpr (hpre u (by simp))
      have := ih (fun v hv => hpre v (by simp [hv]))
      simpa [find_task_by_id, List.find?, hu] using this

theorem updateFirst_append (pre post : List Task) (t : Task) (task_id : Int)
    (f : Task → Task) (hpre : ∀ u ∈ pre, u.id ≠ task_id) (ht : t.id = task_id) :
    updateFirst (pre ++ t :: post) task_id f = pre ++ f t :: post := by
  induction pre with
  | nil =>
      have hb : (t.id == task_id) = true := beq_iff_eq.mpr ht
      simp [updateFirst, hb]
  | cons u pre ih =>
      have hu : (u.id == task_id) = false :=
        beq_eq_false_iff_ne.mpr (hpre u (by simp))
      have := ih (fun v hv => hpre v (by simp [hv]))
      simp [updateFirst, hu, this]

theorem deleteFirst_append (pre post : List Task) (t : Task) (task_id : Int)
    (hpre : ∀ u ∈ pre, u.id ≠ task_id) (ht : t.id = task_id) :
    deleteFirst (pre ++ t :: post) task_id = pre ++ post := by
  induction pre with
  | nil =>
      have hb : (t.id == task_id) = true := beq_iff_eq.mpr ht
      simp [deleteFirst, hb]
  | cons u pre ih =>
      have hu : (u.id == task_id) = false :=
        beq_eq_false_iff_ne.mpr (hpre u (by simp))
      have := ih (fun v hv => hpre v (by simp [hv]))
      simp [deleteFirst, hu, this]

/-- Claim C10: when the collection is `pre ++ t :: post` with no task of
`pre` carrying `task_id` and `t` carrying it, Update, Delete and MarkStatus
all act on `t` alone — `post`, which may hold further tasks with the very
same id, is returned unchanged.  `_find_task_by_id` stops at the first
match, `update`/`mark` mutate only the object it returned, and
`list.remove` removes only that object. -/
theorem c10_ops_first_match_only (pre post : List Task) (t : Task)
    (task_id : Int) (fl : List TaskDict) (d st now : String)
    (hpre : ∀ u ∈ pre, u.id ≠ task_id) (ht : t.id = task_id) :
    (update_task ⟨pre ++ t :: post, fl⟩ task_id d now).2.tasks =
      pre ++ { t with description := d, updated_at := now } :: post ∧
    (delete_task ⟨pre ++ t :: post, fl⟩ task_id).2.tasks = pre ++ post ∧
    (mark_task ⟨pre ++ t :: post, fl⟩ task_id st now).2.tasks =
      pre ++ { t with status := st, updated_at := now } :: post := by
  have hf := find_task_by_id_append pre post t task_id hpre ht
  refine ⟨?_, ?_, ?_⟩
  · simp [update_task, hf, save_tasks, updateFirst_append pre post t task_id _ hpre ht]
  · simp [delete_task, hf, save_tasks, deleteFirst_append pre post t task_id hpre ht]
  · simp [mark_task, hf, save_tasks, updateFirst_append pre post t task_id _ hpre ht]

theorem c10_witness :
    (update_task ⟨[sampleTask 1 "a", sampleTask 1 "b"], []⟩ 1 "x" "t2").2.tasks =
      [{ sampleTask 1 "a" with description := "x", updated_at := "t2" },
       sampleTask 1 "b"] ∧
    (delete_task ⟨[sampleTask 1 "a", sampleTask 1 "b"], []⟩ 1).2.tasks =
      [sampleTask 1 "b"] ∧
    (mark_task ⟨[sampleTask 1 "a", sampleTask 1 "b"], []⟩ 1 "done" "t2").2.tasks =
      [{ sampleTask 1 "a" with status := "done", updated_at := "t2" },
       sampleTask 1 "b"] :=
  c10_ops_first_match_only [] [sampleTask 1 "b"] (sampleTask 1 "a") 1 [] "x" "done" "t2"
    (by simp) rfl

/-- Claim C6 counterexample: MarkStatus with the out-of-enumeration status
`"blocked"` does not fail: it reports success, sets the task's status to
`"blocked"`, and persists the changed collection. -/
theorem c6_counterexample :
    (mark_task demoStore 1 "blocked" "t2").1 = OpResult.ok ∧
    (mark_task demoStore 1 "blocked" "t2").2.tasks.map Task.status =
      ["blocked", "done"] ∧
    (mark_task demoStore 1 "blocked" "t2").2.file ≠ demoStore.file := by
  refine ⟨rfl, rfl, ?_⟩
  decide

theorem updateFirst_mark_mem (task_id : Int) (st now : String) :
    ∀ ts : List Task, (∃ t ∈ ts, t.id = task_id) →
      ∃ t ∈ updateFirst ts task_id (fun u => { u with status := st, updated_at := now }),
        t.id = task_id ∧ t.status = st ∧ t.updated_at = now := by
  intro ts
  induction ts with
  | nil => rintro ⟨t, ht, -⟩; exact absurd ht (List.not_mem_nil t)
  | cons u ts ih =>
      rintro ⟨t, htm, hti⟩
      by_cases hu : u.id = task_id
      · have hb : (u.id == task_id) = true := beq_iff_eq.mpr hu
        exact ⟨{ u with status := st, updated_at := now },
          by simp [updateFirst, hb], hu, rfl, rfl⟩
      · have hb : (u.id == task_id) = false := beq_eq_false_iff_ne.mpr hu
        rcases List.mem_cons.mp htm with rfl | htl
        · exact absurd hti hu
        · obtain ⟨v, hvm, hv⟩ := ih ⟨t, htl, hti⟩
          exact ⟨v, by simp [updateFirst, hb, List.mem_cons]; exact Or.inr hvm, hv⟩

/-- Claim C6 (amended): MarkStatus performs no validation of the status
string: for any status value, enumerated or not, when the id exists the
call reports success and the first matching task ends up carrying exactly
that string as its status, with `updated_at` refreshed, and the change is
persisted. -/
theorem c6_mark_any_status (s : Store) (task_id : Int) (st now : String)
    (h : ∃ t ∈ s.tasks, t.id = task_id) :
    (mark_task s task_id st now).1 = OpResult.ok ∧
    (∃ t ∈ (mark_task s task_id st now).2.tasks,
      t.id = task_id ∧ t.status = st ∧ t.updated_at = now) ∧
    (mark_task s task_id st now).2.file =
      (mark_task s task_id st now).2.tasks.map Task.to_dict := by
  have hs : (find_task_by_id s.tasks task_id).isSome := by
    apply List.find?_isSome.mpr
    obtain ⟨t, htm, hti⟩ := h
    exact ⟨t, htm, beq_iff_eq.mpr hti⟩
  obtain ⟨u, hu⟩ := Option.isSome_iff_exists.mp hs
  refine ⟨by simp [mark_task, hu], ?_, by simp [mark_task, hu, save_tasks]⟩
  have : (mark_task s task_id st now).2.tasks =
      updateFirst s.tasks task_id (fun v => { v with status := st, updated_at := now }) := by
    simp [mark_task, hu, save_tasks]
  rw [this]
  exact updateFirst_mark_mem task_id st now s.tasks h

theorem c6_witness :
    (mark_task demoStore 2 "urgent" "t3").1 = OpResult.ok ∧
    (∃ t ∈ (mark_task demoStore 2 "urgent" "t3").2.tasks,
      t.id = 2 ∧ t.status = "urgent" ∧ t.updated_at = "t3") ∧
    (mark_task demoStore 2 "urgent" "t3").2.file =
      (mark_task demoStore 2 "urgent" "t3").2.tasks.map Task.to_dict :=
  c6_mark_any_status demoStore 2 "urgent" "t3" (by decide)

/-- Claim C8 counterexample: a task object carrying all five required keys
but wrong-typed values — a string `id`, an integer `description`, a boolean
`status` — is loaded without any failure: `Task.from_dict` performs no type
checking, so Load does not fail on wrong-typed fields, let alone with a
`StorageCorruptError` (no such error exists in the source). -/
theorem c8_counterexample :
    raw_load [[("id", JVal.jstr "oops"), ("description", JVal.jint 7),
               ("status", JVal.jbool true), ("createdAt", JVal.jstr "t"),
               ("updatedAt", JVal.jstr "t")]] "now" =
      Except.ok [{ id := JVal.jstr "oops", description := JVal.jint 7,
                   status := JVal.jbool true, created_at := JVal.jstr "t",
                   updated_at := JVal.jstr "t" }] := rfl

theorem raw_from_dict_error_of_missing (d : RawDict) (now : String)
    (h : ∃ k ∈ requiredKeys, dictGet d k = none) :
    ∃ e, raw_from_dict d now = Except.error e := by
  obtain ⟨k, hk, hnone⟩ := h
  simp only [requiredKeys, List.mem_cons, List.not_mem_nil, or_false] at hk
  unfold raw_from_dict
  cases hid : dictGet d "id" with
  | none => exact ⟨_, rfl⟩
  | some vid =>
    cases hdesc : dictGet d "description" with
    | none => exact ⟨_, rfl⟩
    | some vdesc =>
      cases hstat : dictGet d "status" with
      | none => exact ⟨_, rfl⟩
      | some vstat =>
        cases hca : dictGet d "createdAt" with
        | none => exact ⟨_, rfl⟩
        | some vca =>
          cases hua : dictGet d "updatedAt" with
          | none => exact ⟨_, rfl⟩
          | some vua =>
            rcases hk with rfl | rfl | rfl | rfl | rfl <;> simp_all

theorem raw_load_error_of_mem (now : String) :
    ∀ (file : List RawDict) (d : RawDict), d ∈ file →
      (∃ e, raw_from_dict d now = Except.error e) →
      ∃ e, raw_load file now = Except.error e := by
  intro file
  induction file with
  | nil => intro d hd; exact absurd hd (List.not_mem_nil d)
  | cons hd tl ih =>
      rintro d hmem ⟨e, he⟩
      rcases List.mem_cons.mp hmem with rfl | htl
      · exact ⟨e, by simp [raw_load, he]⟩
      · cases hhd : raw_from_dict hd now with
        | error e2 => exact ⟨e2, by simp [raw_load, hhd]⟩
        | ok t =>
            obtain ⟨e3, he3⟩ := ih d htl ⟨e, he⟩
            exact ⟨e3, by simp [raw_load, hhd, he3]⟩

/-- Claim C8 (amended): when some task object of the file is missing one of
the five required keys, Load does fail — with an uncaught `KeyError` from
the dictionary access, not with a typed `StorageCorruptError`, which the
source never defines — and no partial collection is exposed (the failing
comprehension never assigns `self.tasks`).  Wrong-typed but present field
values, by contrast, are accepted as-is without failure. -/
theorem c8_load_missing_field_fails (file : List RawDict) (now : String)
    (d : RawDict) (hd : d ∈ file)
    (hmiss : ∃ k ∈ requiredKeys, dictGet d k = none) :
    ∃ e, raw_load file now = Except.error e :=
  raw_load_error_of_mem now file d hd (raw_from_dict_error_of_missing d now hmiss)

theorem c8_witness :
    ∃ e, raw_load [[("id", JVal.jint 1), ("description", JVal.jstr "a"),
                    ("createdAt", JVal.jstr "t"), ("updatedAt", JVal.jstr "t")]] "n" =
      Except.error e :=
  c8_load_missing_field_fails
    [[("id", JVal.jint 1), ("description", JVal.jstr "a"),
      ("createdAt", JVal.jstr "t"), ("updatedAt", JVal.jstr "t")]] "n"
    [("id", JVal.jint 1), ("description", JVal.jstr "a"),
     ("createdAt", JVal.jstr "t"), ("updatedAt", JVal.jstr "t")]
    (by simp) ⟨"status", by simp [requiredKeys], rfl⟩

end TaskCli
